import Mathlib

/-!
Verification of the myrunstreak.com sync/token state machine.

This file shallowly embeds the Python modules
`src/cli/commands/sync.py`, `src/shared/smashrun/sync_state.py`,
`src/shared/supabase_ops/token_repository.py` and
`src/shared/models/split.py` into Lean and proves the documented
properties of window resolution, token expiry, sync-state recording and
the split data model.

Modelling conventions:
* `datetime.date` is a year/month/day record; `date.fromisoformat` is
  modelled with Python 3.11 semantics (the code imports `datetime.UTC`,
  so it runs on >= 3.11): the `YYYY-MM-DD` and `YYYYMMDD` calendar forms
  and the ISO-week forms, including calendar and week validity (Python
  raises `ValueError` on invalid input, which the model renders as
  `none`).
* instants (`datetime.now(UTC)`) are integer seconds; `timedelta(minutes=5)`
  is `300` seconds.
* Supabase tables are lists of rows; an `update(...).eq(...)` call maps
  over the list and rewrites the matching rows.
* Python truthiness tests (`if year:`, `if since:`, `if expires_in:`,
  `if not source.get("access_token")`) are modelled exactly: `0`, `None`
  and the empty string are falsy.
* floats carrying distances/durations are modelled as rationals; only
  their ordering is relevant to the properties proved here.
-/

namespace MyRunStreak

/-- A calendar date, as in Python `datetime.date` (year/month/day). -/
structure Date where
  year : Int
  month : Nat
  day : Nat
deriving DecidableEq, Repr

/-- Gregorian leap-year test, as used by `datetime.date` validation. -/
def isLeapYear (y : Int) : Bool :=
  y % 4 == 0 && (y % 100 != 0 || y % 400 == 0)

/-- Number of days in a month of a given year. -/
def daysInMonth (y : Int) (m : Nat) : Nat :=
  if m = 2 then (if isLeapYear y then 29 else 28)
  else if m = 4 ∨ m = 6 ∨ m = 9 ∨ m = 11 then 30
  else 31

/-- Validity of a date under Python `datetime.date`'s constructor
(`MINYEAR = 1`, `MAXYEAR = 9999`, real calendar month/day ranges). -/
def Date.valid (d : Date) : Bool :=
  1 ≤ d.year && d.year ≤ 9999 && 1 ≤ d.month && d.month ≤ 12 &&
  1 ≤ d.day && d.day ≤ daysInMonth d.year d.month

/-- Days since the civil epoch 1970-01-01 (standard civil-calendar
conversion); used to model `timedelta` arithmetic on dates. -/
def daysFromCivil (d : Date) : Int :=
  let y : Int := if d.month ≤ 2 then d.year - 1 else d.year
  let era : Int := (if 0 ≤ y then y else y - 399) / 400
  let yoe : Int := y - era * 400
  let mp : Int := (Int.ofNat d.month + 9) % 12
  let doy : Int := (153 * mp + 2) / 5 + Int.ofNat d.day - 1
  let doe : Int := yoe * 365 + yoe / 4 - yoe / 100 + doy
  era * 146097 + doe - 719468

/-- Inverse of `daysFromCivil` (standard civil-calendar conversion). -/
def civilFromDays (z0 : Int) : Date :=
  let z : Int := z0 + 719468
  let era : Int := (if 0 ≤ z then z else z - 146096) / 146097
  let doe : Int := z - era * 146097
  let yoe : Int := (doe - doe / 1460 + doe / 36524 - doe / 146096) / 365
  let y : Int := yoe + era * 400
  let doy : Int := doe - (365 * yoe + yoe / 4 - yoe / 100)
  let mp : Int := (5 * doy + 2) / 153
  let dd : Int := doy - (153 * mp + 2) / 5 + 1
  let mm : Int := if mp < 10 then mp + 3 else mp - 9
  ⟨if mm ≤ 2 then y + 1 else y, mm.toNat, dd.toNat⟩

/-- `d - timedelta(days=n)`, as used for the 30-day backfill default. -/
def subDays (d : Date) (n : Int) : Date :=
  civilFromDays (daysFromCivil d - n)

/-- The decimal digit character for `n % 10`. -/
def digitChar (n : Nat) : Char :=
  match n % 10 with
  | 0 => '0'
  | 1 => '1'
  | 2 => '2'
  | 3 => '3'
  | 4 => '4'
  | 5 => '5'
  | 6 => '6'
  | 7 => '7'
  | 8 => '8'
  | _ => '9'

/-- Two-digit zero-padded decimal rendering. -/
def pad2 (n : Nat) : List Char := [digitChar (n / 10), digitChar n]

/-- Four-digit zero-padded decimal rendering. -/
def pad4 (n : Nat) : List Char :=
  [digitChar (n / 1000), digitChar (n / 100), digitChar (n / 10), digitChar n]

/-- Python `date.isoformat()`: the `YYYY-MM-DD` rendering of a date. -/
def Date.isoformat (d : Date) : String :=
  ⟨pad4 d.year.toNat ++ '-' :: (pad2 d.month ++ '-' :: pad2 d.day)⟩

/-- Numeric value of a decimal digit character, `none` otherwise. -/
def digitVal (c : Char) : Option Nat :=
  if 48 ≤ c.toNat ∧ c.toNat ≤ 57 then some (c.toNat - 48) else none

/-- Python ordinal (`date.toordinal()`) of January 1 of `year`: days since
0001-01-00, so that 0001-01-01 is ordinal 1 and 1970-01-01 is 719163. -/
def pyOrdJan1 (year : Int) : Int := daysFromCivil ⟨year, 1, 1⟩ + 719163

/-- Whether `year` has 53 ISO weeks (CPython `_isoweek_to_gregorian`):
years starting on a Thursday, and leap years starting on a Wednesday. -/
def isLongISOYear (year : Int) : Bool :=
  let fw := pyOrdJan1 year % 7
  fw == 4 || (fw == 3 && isLeapYear year)

/-- CPython `_isoweek_to_gregorian(year, week, day)`: validates the year
range, the week number (1..52, or 53 in long ISO years) and the weekday
(1..7), then converts via the ordinal of the Monday starting ISO week 1;
an out-of-range Gregorian result raises, modelled as `none`. -/
def isoweekToGregorian (year week day : Int) : Option Date :=
  if 1 ≤ year ∧ year ≤ 9999 then
    if (0 < week ∧ week < 53) ∨ (week = 53 ∧ isLongISOYear year = true) then
      if 0 < day ∧ day < 8 then
        let dayOffset : Int := (week - 1) * 7 + (day - 1)
        let firstday : Int := pyOrdJan1 year
        let firstweekday : Int := (firstday + 6) % 7
        let week1monday : Int :=
          firstday - firstweekday + (if 3 < firstweekday then 7 else 0)
        let d := civilFromDays (week1monday + dayOffset - 719163)
        if d.valid then some d else none
      else none
    else none
  else none

/-- The calendar (`YYYY MM DD`) arm of `date.fromisoformat`: the eight
characters must all be digits and the resulting date valid. -/
def parseCalendarChars (y1 y2 y3 y4 m1 m2 d1 d2 : Char) : Option Date :=
  match digitVal y1, digitVal y2, digitVal y3, digitVal y4,
        digitVal m1, digitVal m2, digitVal d1, digitVal d2 with
  | some a, some b, some c, some e, some f, some g, some h, some i =>
    let dt : Date :=
      ⟨Int.ofNat (a * 1000 + b * 100 + c * 10 + e), f * 10 + g, h * 10 + i⟩
    if dt.valid then some dt else none
  | _, _, _, _, _, _, _, _ => none

/-- The ISO-week (`YYYY Www D?`) arm of `date.fromisoformat`; a missing
weekday defaults to 1. -/
def parseWeekChars (y1 y2 y3 y4 w1 w2 : Char) (dayChar : Option Char) :
    Option Date :=
  match digitVal y1, digitVal y2, digitVal y3, digitVal y4,
        digitVal w1, digitVal w2 with
  | some a, some b, some c, some e, some f, some g =>
    let year : Int := Int.ofNat (a * 1000 + b * 100 + c * 10 + e)
    let week : Int := Int.ofNat (f * 10 + g)
    match dayChar with
    | none => isoweekToGregorian year week 1
    | some dc =>
      match digitVal dc with
      | some dv => isoweekToGregorian year week (Int.ofNat dv)
      | none => none
  | _, _, _, _, _, _ => none

/-- Python 3.11 `date.fromisoformat` (the code imports `datetime.UTC`, so
it requires Python >= 3.11, whose parser accepts most ISO 8601 date
formats): strings of length 7 (`YYYYWww`), 8 (`YYYYMMDD`, `YYYY-Www`,
`YYYYWwwD`) and 10 (`YYYY-MM-DD`, `YYYY-Www-D`, and the separator-free
forms in which CPython ignores the trailing two characters), dispatched as
in CPython `parse_isoformat_date`; every other input raises `ValueError`,
modelled as `none`. -/
def fromisoformat (s : String) : Option Date :=
  match s.toList with
  | [c1, c2, c3, c4, c5, c6, c7] =>
    if c5 = 'W' then parseWeekChars c1 c2 c3 c4 c6 c7 none else none
  | [c1, c2, c3, c4, c5, c6, c7, c8] =>
    if c5 = '-' then
      if c6 = 'W' then parseWeekChars c1 c2 c3 c4 c7 c8 none else none
    else if c5 = 'W' then parseWeekChars c1 c2 c3 c4 c6 c7 (some c8)
    else parseCalendarChars c1 c2 c3 c4 c5 c6 c7 c8
  | [c1, c2, c3, c4, c5, c6, c7, c8, c9, c10] =>
    if c5 = '-' then
      if c6 = 'W' then
        if c9 = '-' then parseWeekChars c1 c2 c3 c4 c7 c8 (some c10) else none
      else if c8 = '-' then parseCalendarChars c1 c2 c3 c4 c6 c7 c9 c10
      else none
    else if c5 = 'W' then parseWeekChars c1 c2 c3 c4 c6 c7 (some c8)
    else parseCalendarChars c1 c2 c3 c4 c5 c6 c7 c8
  | _ => none

/-- Python truthiness of an `str | None` value: `None` and `""` are falsy. -/
def optStrTruthy : Option String → Bool
  | some s => !(s = "")
  | none => false

/-- Python truthiness of an `int | None` value: `None` and `0` are falsy. -/
def optIntTruthy : Option Int → Bool
  | some n => !(n = 0)
  | none => false

/-- The flag values of the `stk sync` command
(`sync_runs(since, until, year, full)` in `src/cli/commands/sync.py`). -/
structure SyncFlags where
  since : Option String
  untilStr : Option String
  year : Option Int
  full : Bool
deriving DecidableEq, Repr

/-- Contents of the local CLI sync-state file `~/.config/stk/sync_state.json`
(the fields read or written by `sync.py`; `last_sync_timestamp` is write-only
there and omitted). -/
structure LocalFile where
  last_sync_date : Option String
  runs_synced : Nat
deriving DecidableEq, Repr

/-- `get_last_sync_date` in `src/cli/commands/sync.py`: missing file means
30 days ago; otherwise `date.fromisoformat(state.get("last_sync_date",
str(today - 30 days)))`. An unparsable stored string raises `ValueError`
(modelled as `none`). -/
def cliGetLastSyncDate (file : Option LocalFile) (today : Date) : Option Date :=
  match file with
  | none => some (subDays today 30)
  | some st => fromisoformat (st.last_sync_date.getD (subDays today 30).isoformat)

/-- Result of the window-resolution step of `sync_runs`
(`src/cli/commands/sync.py` lines 67-102). `invalid` is the
`display_error` + `typer.Exit(1)` path for an unparsable date string;
`crash` is an uncaught exception (`date(year, 1, 1)` with a year outside
1..9999, or an unreadable state file). -/
inductive WindowRes where
  | ok (sinceDate untilDate : Date)
  | invalid
  | crash
deriving DecidableEq, Repr

/-- The `elif full / elif since or until / else` part of window resolution
(everything after the `if year:` test). `lastSync` is the value
`get_last_sync_date()` would produce (`none` = it would raise). The
returned `Bool` records whether `get_last_sync_date()` was called. -/
def resolveNoYear (flags : SyncFlags) (lastSync : Option Date) (today : Date) :
    WindowRes × Bool :=
  if flags.full then (.ok ⟨2010, 1, 1⟩ today, false)
  else if optStrTruthy flags.since || optStrTruthy flags.untilStr then
    if optStrTruthy flags.since then
      match fromisoformat (flags.since.getD "") with
      | none => (.invalid, false)
      | some sd =>
        if optStrTruthy flags.untilStr then
          match fromisoformat (flags.untilStr.getD "") with
          | none => (.invalid, false)
          | some ud => (.ok sd ud, false)
        else (.ok sd today, false)
    else
      match lastSync with
      | none => (.crash, true)
      | some sd =>
        if optStrTruthy flags.untilStr then
          match fromisoformat (flags.untilStr.getD "") with
          | none => (.invalid, true)
          | some ud => (.ok sd ud, true)
        else (.ok sd today, true)
  else
    match lastSync with
    | none => (.crash, true)
    | some sd => (.ok sd today, true)

/-- Window resolution of `sync_runs` (`src/cli/commands/sync.py` lines
67-102): `if year:` (Python truthiness, so `year = 0` falls through),
`elif full:`, `elif since or until:`, `else` incremental. -/
def resolveWindow (flags : SyncFlags) (lastSync : Option Date) (today : Date) :
    WindowRes × Bool :=
  match flags.year with
  | some y =>
    if y = 0 then resolveNoYear flags lastSync today
    else if 1 ≤ y ∧ y ≤ 9999 then (.ok ⟨y, 1, 1⟩ ⟨y, 12, 31⟩, false)
    else (.crash, false)
  | none => resolveNoYear flags lastSync today

/-- Externally observable effects of one `stk sync` invocation. -/
inductive Effect where
  | stateRead
  | netCall
  | stateWrite (lastSyncDate : Date) (runs : Nat)
deriving DecidableEq, Repr

/-- Process outcome of one `stk sync` invocation. -/
inductive Outcome where
  | exited
  | crashed
  | ok (runs : Nat)
deriving DecidableEq, Repr

/-- JSON body returned by the `sync-user` API endpoint, as read by
`sync_runs` (`result.get("runs_synced", 0)`, `result.get("since", ...)`,
`result.get("until", ...)`). -/
structure SyncResponse where
  runs_synced : Option Nat
  since : Option String
  untilStr : Option String
deriving DecidableEq, Repr

/-- Outcome of `post_request("sync-user", ...)`: a response body or a
raised exception. -/
inductive ApiResult where
  | exn
  | ok (resp : SyncResponse)
deriving DecidableEq, Repr

/-- Effect-trace prefix of the window-resolution step. -/
def readTrace (read : Bool) : List Effect :=
  if read then [.stateRead] else []

/-- `sync_runs` in `src/cli/commands/sync.py`: resolves the window, calls
the API, and on `runs_synced > 0` writes the local state file with the
response's `until` date (default: the window's `until`) and the count.
Returns the effect trace, the process outcome, and the state file content
after the invocation. -/
def syncRuns (flags : SyncFlags) (file : Option LocalFile) (today : Date)
    (api : ApiResult) : List Effect × Outcome × Option LocalFile :=
  match resolveWindow flags (cliGetLastSyncDate file today) today with
  | (.crash, r) => (readTrace r, .crashed, file)
  | (.invalid, r) => (readTrace r, .exited, file)
  | (.ok _ untilDate, r) =>
    let pre := readTrace r
    match api with
    | .exn => (pre ++ [.netCall], .exited, file)
    | .ok resp =>
      let runs := resp.runs_synced.getD 0
      let syncUntil := resp.untilStr.getD untilDate.isoformat
      if runs > 0 then
        match fromisoformat syncUntil with
        | none => (pre ++ [.netCall], .exited, file)
        | some d =>
          (pre ++ [.netCall, .stateWrite d runs], .ok runs,
           some ⟨some d.isoformat, runs⟩)
      else (pre ++ [.netCall], .ok runs, file)

/-- JSON payload of the AWS Secrets Manager sync-state secret, as read and
written by `SyncStateManager` (`src/shared/smashrun/sync_state.py`). The
timestamp instant is an integer (seconds). -/
structure SyncStoreState where
  last_sync_date : Option String
  last_sync_timestamp : Int
  runs_synced : Nat
deriving DecidableEq, Repr

/-- Outcome of `get_secret_value` on the sync-state secret: a parsed
payload, `ResourceNotFoundException`, another service-reported
`ClientError`, or a client-side `BotoCoreError` (e.g.
`EndpointConnectionError`, `ReadTimeoutError`), which is not a
`ClientError` subclass. -/
inductive SecretsReadOutcome where
  | ok (state : SyncStoreState)
  | notFound
  | clientError
  | botoCoreError
deriving DecidableEq, Repr

/-- Python exceptions that `SyncStateManager.get_last_sync_date` can let
escape: `ValueError` from `date.fromisoformat` on a malformed stored date,
and `BotoCoreError` from the boto3 call — the `except` clauses catch only
`ResourceNotFoundException` and `ClientError`. -/
inductive PyError where
  | valueError
  | botoCoreError
deriving DecidableEq, Repr

/-- `SyncStateManager.get_last_sync_date` (`src/shared/smashrun/sync_state.py`
lines 38-73): stored truthy `last_sync_date` is parsed; a falsy or absent
field, a missing secret, or any other `ClientError` yields `today - 30 days`;
an unparsable stored string raises `ValueError` and a client-side
`BotoCoreError` from `get_secret_value` propagates (both uncaught). -/
def getLastSyncDate (outcome : SecretsReadOutcome) (today : Date) :
    Except PyError Date :=
  match outcome with
  | .ok st =>
    match st.last_sync_date with
    | some s =>
      if s = "" then .ok (subDays today 30)
      else
        match fromisoformat s with
        | some d => .ok d
        | none => .error .valueError
    | none => .ok (subDays today 30)
  | .notFound => .ok (subDays today 30)
  | .clientError => .ok (subDays today 30)
  | .botoCoreError => .error .botoCoreError

/-- `SyncStateManager.update_last_sync_date` (`sync_state.py` lines 75-112):
writes `{last_sync_date, last_sync_timestamp, runs_synced}`, updating the
secret when it exists and creating it otherwise; either way the secret holds
the new payload afterwards. `nowTs` models `datetime.utcnow()`. -/
def updateLastSyncDate (syncDate : Date) (runsSynced : Nat) (nowTs : Int)
    (_st : Option SyncStoreState) : Option SyncStoreState :=
  some ⟨some syncDate.isoformat, nowTs, runsSynced⟩

/-- `SyncStateManager.record_sync_attempt` (`sync_state.py` lines 140-160):
on success, `update_last_sync_date(date.today(), runs_synced)`; on failure,
logs only and leaves the stored state untouched. -/
def recordSyncAttempt (success : Bool) (runsSynced : Nat) (today : Date)
    (nowTs : Int) (st : Option SyncStoreState) : Option SyncStoreState :=
  if success then updateLastSyncDate today runsSynced nowTs st else st

/-- A row of the Supabase `user_sources` table, with the columns touched by
`TokenRepository` (`src/shared/supabase_ops/token_repository.py`).
`token_expires_at` and `updated_at` instants are integer seconds. -/
structure SourceRow where
  id : Nat
  user_id : String
  source_type : String
  access_token : Option String
  refresh_token : Option String
  token_expires_at : Option Int
  is_active : Bool
  updated_at : Int
deriving DecidableEq, Repr

/-- The dict returned by `TokenRepository.get_user_tokens`. -/
structure Tokens where
  source_id : Nat
  access_token : String
  refresh_token : Option String
  token_expires_at : Option Int
deriving DecidableEq, Repr

/-- The filter `eq(user_id).eq(source_type).eq(is_active, True)` used by
`get_user_tokens`, `save_user_tokens` and `get_source_id_for_user`. -/
def rowMatchesActive (uid st : String) (r : SourceRow) : Bool :=
  r.user_id = uid && r.source_type = st && r.is_active

/-- `TokenRepository.get_user_tokens` (`token_repository.py` lines 29-68):
first active row for `(user_id, source_type)`; `none` when there is no such
row or its `access_token` is falsy (null or empty). -/
def getUserTokens (table : List SourceRow) (uid st : String) : Option Tokens :=
  match table.filter (rowMatchesActive uid st) with
  | [] => none
  | r :: _ =>
    match r.access_token with
    | none => none
    | some t =>
      if t = "" then none
      else some ⟨r.id, t, r.refresh_token, r.token_expires_at⟩

/-- The 5-minute expiry safety buffer of `is_token_expired`, in seconds. -/
def bufferSeconds : Int := 5 * 60

/-- `TokenRepository.is_token_expired` (`token_repository.py` lines
116-147): `True` with no tokens, `False` with no expiry, otherwise
`now + buffer >= expires_at`. -/
def isTokenExpired (table : List SourceRow) (uid st : String) (now : Int) :
    Bool :=
  match getUserTokens table uid st with
  | none => true
  | some tk =>
    match tk.token_expires_at with
    | none => false
    | some expiresAt => now + bufferSeconds ≥ expiresAt

/-- `TokenRepository.save_user_tokens` (`token_repository.py` lines 70-114):
`token_expires_at = now + expires_in` under `if expires_in:` (Python
truthiness, so `0` yields null), then an update of every matching active
row; with no matching row only a warning is logged. -/
def saveUserTokens (table : List SourceRow) (uid accessToken refreshToken : String)
    (expiresIn : Option Int) (st : String) (now : Int) : List SourceRow :=
  let tokenExpiresAt : Option Int :=
    if optIntTruthy expiresIn then some (now + expiresIn.getD 0) else none
  table.map fun r =>
    if rowMatchesActive uid st r then
      { r with
        access_token := some accessToken
        refresh_token := some refreshToken
        token_expires_at := tokenExpiresAt
        updated_at := now }
    else r

/-- `TokenRepository.delete_tokens` (`token_repository.py` lines 207-226):
an update of every `(user_id, source_type)` row (no `is_active` filter)
setting the three token fields to null and bumping `updated_at`. -/
def deleteTokens (table : List SourceRow) (uid st : String) (now : Int) :
    List SourceRow :=
  table.map fun r =>
    if r.user_id = uid ∧ r.source_type = st then
      { r with
        access_token := none
        refresh_token := none
        token_expires_at := none
        updated_at := now }
    else r

theorem digitVal_digitChar (k : Nat) : digitVal (digitChar k) = some (k % 10) := by
  have hk : k % 10 < 10 := Nat.mod_lt _ (by decide)
  unfold digitChar
  generalize hx : k % 10 = x at *
  interval_cases x <;> decide

theorem digitChar_ne_W (k : Nat) : ¬(digitChar k = 'W') := by
  unfold digitChar
  split <;> decide

theorem fromisoformat_isoformat (d : Date) (hv : d.valid = true) :
    fromisoformat d.isoformat = some d := by
  obtain ⟨y, m, dd⟩ := d
  simp only [Date.valid, Bool.and_eq_true, decide_eq_true_eq] at hv
  obtain ⟨⟨⟨⟨⟨h1, h2⟩, h3⟩, h4⟩, h5⟩, h6⟩ := hv
  have hW : ¬(digitChar (m / 10) = 'W') := digitChar_ne_W _
  unfold Date.isoformat fromisoformat
  simp only [pad4, pad2, String.toList, List.cons_append, List.nil_append,
    hW, reduceIte, if_true, if_false]
  unfold parseCalendarChars
  simp only [digitVal_digitChar]
  have hdm : daysInMonth y m ≤ 31 := by
    unfold daysInMonth
    split
    · split <;> decide
    · split <;> decide
  have hyrec : y.toNat / 1000 % 10 * 1000 + y.toNat / 100 % 10 * 100 +
      y.toNat / 10 % 10 * 10 + y.toNat % 10 = y.toNat := by omega
  have hmrec : m / 10 % 10 * 10 + m % 10 = m := by omega
  have hdrec : dd / 10 % 10 * 10 + dd % 10 = dd := by omega
  rw [hyrec, hmrec, hdrec]
  have hyy : Int.ofNat y.toNat = y := by
    simp only [Int.ofNat_eq_coe]
    omega
  rw [hyy]
  have hvd : Date.valid ⟨y, m, dd⟩ = true := by
    simp only [Date.valid, Bool.and_eq_true, decide_eq_true_eq]
    refine ⟨⟨⟨⟨⟨h1, h2⟩, h3⟩, h4⟩, h5⟩, h6⟩
  rw [hvd]
  simp

/-- Claim C2: for every user and source type, `is_token_expired` returns true
when `get_user_tokens` is absent (no active source or no stored access
token); false when tokens exist but `token_expires_at` is null; and otherwise
true iff `now + 5 minutes >= token_expires_at` — in particular an expiry of
`now + 4 minutes` yields true and `now + 10 minutes` yields false, and a null
expiry yields false for every `now`. -/
theorem C2_is_token_expired (table : List SourceRow) (uid st : String) (now : Int) :
    (getUserTokens table uid st = none → isTokenExpired table uid st now = true) ∧
    (∀ tk, getUserTokens table uid st = some tk → tk.token_expires_at = none →
      isTokenExpired table uid st now = false) ∧
    (∀ tk e, getUserTokens table uid st = some tk → tk.token_expires_at = some e →
      (isTokenExpired table uid st now = true ↔ now + bufferSeconds ≥ e)) ∧
    (∀ tk, getUserTokens table uid st = some tk →
      tk.token_expires_at = some (now + 240) →
      isTokenExpired table uid st now = true) ∧
    (∀ tk, getUserTokens table uid st = some tk →
      tk.token_expires_at = some (now + 600) →
      isTokenExpired table uid st now = false) := by
  refine ⟨fun h => by simp [isTokenExpired, h],
          fun tk h he => by simp [isTokenExpired, h, he],
          fun tk e h he => by simp [isTokenExpired, h, he],
          fun tk h he => by
            simp only [isTokenExpired, h, he, bufferSeconds, ge_iff_le,
              decide_eq_true_eq]
            omega,
          fun tk h he => by
            simp only [isTokenExpired, h, he, bufferSeconds, ge_iff_le,
              decide_eq_false_iff_not]
            omega⟩

/-- Witness for C2 at a concrete store: one active smashrun row whose token
expires exactly 4 minutes after `now = 760`. -/
theorem C2_is_token_expired_witness :
    isTokenExpired [⟨1, "u1", "smashrun", some ("tok"), some ("ref"), some 1000, true, 0⟩]
      "u1" "smashrun" 760 = true :=
  (C2_is_token_expired
      [⟨1, "u1", "smashrun", some ("tok"), some ("ref"), some 1000, true, 0⟩]
      "u1" "smashrun" 760).2.2.2.1
    ⟨1, "tok", some ("ref"), some 1000⟩ (by decide) (by decide)

/-- Counterexample to C4 as stated: a client-side botocore failure of the
secret lookup (e.g. a connection or read-timeout error) is a retrieval
failure, yet it is not a `ClientError` and no `except` clause catches it,
so `get_last_sync_date` propagates it instead of returning the
`today - 30 days` default the claim requires. -/
theorem C4_botocore_counterexample :
    getLastSyncDate .botoCoreError ⟨2025, 10, 12⟩ = .error .botoCoreError ∧
    Except.error PyError.botoCoreError
      ≠ Except.ok (subDays ⟨2025, 10, 12⟩ 30) := by
  refine ⟨rfl, fun hcontra => Except.noConfusion hcontra⟩

/-- Claim C4 (amended): `get_last_sync_date` returns the stored date when
the state record carries one; it returns `today - 30 days` when the secret
is missing, when the lookup raises any other service-reported
`ClientError`, or when the record has no (truthy) `last_sync_date` — those
store-reported errors are never propagated; a client-side `BotoCoreError`
(connection/timeout), however, is outside the `except` clauses and
propagates to the caller. -/
theorem C4_get_last_sync_date (today : Date) :
    getLastSyncDate .notFound today = .ok (subDays today 30) ∧
    getLastSyncDate .clientError today = .ok (subDays today 30) ∧
    (∀ ts rs, getLastSyncDate (.ok ⟨none, ts, rs⟩) today = .ok (subDays today 30)) ∧
    (∀ s d ts rs, fromisoformat s = some d →
      getLastSyncDate (.ok ⟨some s, ts, rs⟩) today = .ok d) ∧
    getLastSyncDate .botoCoreError today = .error .botoCoreError := by
  refine ⟨rfl, rfl, fun ts rs => rfl, fun s d ts rs h => ?_, rfl⟩
  have hs : ¬(s = "") := by
    intro h0
    rw [h0] at h
    exact Option.noConfusion (show (none : Option Date) = some d from h)
  simp [getLastSyncDate, hs, h]

/-- Witness for C4 at a concrete stored state and date. -/
theorem C4_get_last_sync_date_witness :
    getLastSyncDate (.ok ⟨some ("2024-01-01"), 0, 0⟩) ⟨2025, 10, 12⟩
      = .ok ⟨2024, 1, 1⟩ :=
  (C4_get_last_sync_date ⟨2025, 10, 12⟩).2.2.2.1 ("2024-01-01") ⟨2024, 1, 1⟩ 0 0
    (by decide)

/-- Claim C5: `record_sync_attempt` with `success = true` calls
`update_last_sync_date(today, runs_synced)`; with `success = false` it
performs no state write, so the stored state after a failed attempt equals
the stored state before it, for every prior state. -/
theorem C5_record_sync_attempt (runsSynced : Nat) (today : Date) (nowTs : Int)
    (st : Option SyncStoreState) :
    recordSyncAttempt true runsSynced today nowTs st
      = updateLastSyncDate today runsSynced nowTs st ∧
    recordSyncAttempt false runsSynced today nowTs st = st :=
  ⟨rfl, rfl⟩

/-- Claim C8: `delete_tokens` maps each `(user_id, source_type)` row to the
same row with the three token fields null and `updated_at` bumped, leaves
every other row unchanged, preserves the number of rows (no row is deleted),
and on rewritten rows preserves `id`, `user_id`, `source_type` and
`is_active`. -/
theorem C8_delete_tokens (table : List SourceRow) (uid st : String) (now : Int) :
    (deleteTokens table uid st now).length = table.length ∧
    ∀ (i : Nat) (r : SourceRow), table[i]? = some r →
      (deleteTokens table uid st now)[i]? = some
        (if r.user_id = uid ∧ r.source_type = st then
          { r with
            access_token := none
            refresh_token := none
            token_expires_at := none
            updated_at := now }
        else r) := by
  constructor
  · simp [deleteTokens]
  · intro i r h
    simp [deleteTokens, List.getElem?_map, h]

/-- Witness for C8 at a concrete one-row table. -/
theorem C8_delete_tokens_witness :
    (deleteTokens [⟨1, "u1", "smashrun", some ("tok"), some ("ref"), some 5, true, 0⟩]
        "u1" "smashrun" 99)[0]?
      = some ⟨1, "u1", "smashrun", none, none, none, true, 99⟩ :=
  ((C8_delete_tokens
      [⟨1, "u1", "smashrun", some ("tok"), some ("ref"), some 5, true, 0⟩]
      "u1" "smashrun" 99).2 0
    ⟨1, "u1", "smashrun", some ("tok"), some ("ref"), some 5, true, 0⟩
    (by decide)).trans (by decide)

/-- Counterexample to C7 as stated: `expires_in = 0` is given, yet
`save_user_tokens` leaves `token_expires_at` null (the code guards the
computation with `if expires_in:`, and `0` is falsy in Python), instead of
the claimed `now + 0`. -/
theorem C7_expires_in_zero_counterexample :
    saveUserTokens
        [⟨1, "u1", "smashrun", some ("old"), some ("oldr"), some 50, true, 0⟩]
        "u1" "newA" "newR" (some 0) "smashrun" 1000
      = [⟨1, "u1", "smashrun", some ("newA"), some ("newR"), none, true, 1000⟩] ∧
    (none : Option Int) ≠ some (1000 + 0) := by
  constructor
  · decide
  · decide

/-- Claim C7 (amended): `save_user_tokens` sets `token_expires_at` to
`now + expires_in` whenever `expires_in` is given and nonzero, and to null
when it is absent or zero; on every matching active row it overwrites the
stored access and refresh tokens and sets `updated_at` to now; non-matching
rows are untouched; and no row is ever created (the row count is
preserved), so with no matching active row nothing changes. -/
theorem C7_save_user_tokens_amended (table : List SourceRow)
    (uid acc ref : String) (expiresIn : Option Int) (st : String) (now : Int) :
    (saveUserTokens table uid acc ref expiresIn st now).length = table.length ∧
    (∀ (i : Nat) (r : SourceRow), table[i]? = some r →
      rowMatchesActive uid st r = false →
      (saveUserTokens table uid acc ref expiresIn st now)[i]? = some r) ∧
    (∀ n, expiresIn = some n → n ≠ 0 →
      ∀ (i : Nat) (r : SourceRow), table[i]? = some r →
        rowMatchesActive uid st r = true →
        (saveUserTokens table uid acc ref expiresIn st now)[i]? = some
          { r with
            access_token := some acc
            refresh_token := some ref
            token_expires_at := some (now + n)
            updated_at := now }) ∧
    ((expiresIn = none ∨ expiresIn = some 0) →
      ∀ (i : Nat) (r : SourceRow), table[i]? = some r →
        rowMatchesActive uid st r = true →
        (saveUserTokens table uid acc ref expiresIn st now)[i]? = some
          { r with
            access_token := some acc
            refresh_token := some ref
            token_expires_at := none
            updated_at := now }) := by
  refine ⟨by simp [saveUserTokens], ?_, ?_, ?_⟩
  · intro i r h hm
    simp [saveUserTokens, List.getElem?_map, h, hm]
  · intro n hn hnz i r h hm
    subst hn
    simp [saveUserTokens, List.getElem?_map, h, hm, optIntTruthy, hnz]
  · intro hz i r h hm
    rcases hz with hz | hz <;> subst hz <;>
      simp [saveUserTokens, List.getElem?_map, h, hm, optIntTruthy]

/-- Witness for the amended C7 at a concrete one-row table with
`expires_in = 3600`. -/
theorem C7_save_user_tokens_amended_witness :
    (saveUserTokens
        [⟨1, "u1", "smashrun", some ("old"), some ("oldr"), some 50, true, 0⟩]
        "u1" "newA" "newR" (some 3600) "smashrun" 1000)[0]?
      = some ⟨1, "u1", "smashrun", some ("newA"), some ("newR"), some 4600, true, 1000⟩ :=
  ((C7_save_user_tokens_amended
      [⟨1, "u1", "smashrun", some ("old"), some ("oldr"), some 50, true, 0⟩]
      "u1" "newA" "newR" (some 3600) "smashrun" 1000).2.2.1 3600 rfl (by decide)
    0 ⟨1, "u1", "smashrun", some ("old"), some ("oldr"), some 50, true, 0⟩
    (by decide) (by decide)).trans (by decide)

/-- Counterexample to C1 as stated: with `year = 0` given (together with
`full`), the window is the full-sync window `[2010-01-01, today]`, not
`[Jan 1, Dec 31]` of year 0 — the code's `if year:` treats a zero year as
absent. -/
theorem C1_year_zero_counterexample :
    (resolveWindow ⟨none, none, some 0, true⟩ (some ⟨2024, 1, 1⟩) ⟨2025, 10, 12⟩).1
      = WindowRes.ok ⟨2010, 1, 1⟩ ⟨2025, 10, 12⟩ ∧
    WindowRes.ok (⟨2010, 1, 1⟩ : Date) ⟨2025, 10, 12⟩
      ≠ WindowRes.ok ⟨0, 1, 1⟩ ⟨0, 12, 31⟩ := by
  constructor
  · decide
  · decide

/-- Claim C1 (amended): window resolution follows the mutually exclusive
first-match precedence, with flag presence read through Python truthiness:
if `year` is given, nonzero and within the date range 1..9999 the window is
`[Jan 1, Dec 31]` of that year, independent of today's date and of stored
sync state; else if `full` is set the window is `[2010-01-01, today]`; else
if `since` or `until` is given as a nonempty string, each given nonempty
string is parsed, `until` defaults to today when absent or empty, and
`since` defaults to the last sync date when absent or empty (reading the
sync state); else the window is `[last sync date, today]`. -/
theorem C1_window_resolution_amended (flags : SyncFlags) (lastSync today : Date) :
    (∀ y, flags.year = some y → 1 ≤ y → y ≤ 9999 →
      resolveWindow flags (some lastSync) today
        = (.ok ⟨y, 1, 1⟩ ⟨y, 12, 31⟩, false)) ∧
    (optIntTruthy flags.year = false → flags.full = true →
      resolveWindow flags (some lastSync) today = (.ok ⟨2010, 1, 1⟩ today, false)) ∧
    (optIntTruthy flags.year = false → flags.full = false →
      ∀ s, flags.since = some s → s ≠ "" →
        ((∀ d, fromisoformat s = some d →
          ((∀ u, flags.untilStr = some u → u ≠ "" →
            ∀ du, fromisoformat u = some du →
              resolveWindow flags (some lastSync) today = (.ok d du, false)) ∧
           (optStrTruthy flags.untilStr = false →
              resolveWindow flags (some lastSync) today = (.ok d today, false)))) ∧
         (fromisoformat s = none →
           resolveWindow flags (some lastSync) today = (.invalid, false)))) ∧
    (optIntTruthy flags.year = false → flags.full = false →
      optStrTruthy flags.since = false →
      ∀ u, flags.untilStr = some u → u ≠ "" →
        ((∀ du, fromisoformat u = some du →
          resolveWindow flags (some lastSync) today = (.ok lastSync du, true)) ∧
         (fromisoformat u = none →
           resolveWindow flags (some lastSync) today = (.invalid, true)))) ∧
    (optIntTruthy flags.year = false → flags.full = false →
      optStrTruthy flags.since = false → optStrTruthy flags.untilStr = false →
      resolveWindow flags (some lastSync) today = (.ok lastSync today, true)) := by
  obtain ⟨fs, fu, fy, ff⟩ := flags
  have key : optIntTruthy fy = false →
      resolveWindow ⟨fs, fu, fy, ff⟩ (some lastSync) today
        = resolveNoYear ⟨fs, fu, fy, ff⟩ (some lastSync) today := by
    intro hy
    cases fy with
    | none => rfl
    | some y =>
      have hz : y = 0 := by
        by_contra hc
        simp [optIntTruthy, hc] at hy
      subst hz
      simp [resolveWindow]
  refine ⟨?_, ?_, ?_, ?_, ?_⟩
  · intro y hy h1 h9999
    have hy2 : fy = some y := hy
    subst hy2
    have hnz : ¬(y = 0) := by omega
    simp [resolveWindow, hnz, h1, h9999]
  · intro hy hf
    have hy2 : optIntTruthy fy = false := hy
    have hf2 : ff = true := hf
    rw [key hy2]
    simp [resolveNoYear, hf2]
  · intro hy hf s hs hse
    have hy2 : optIntTruthy fy = false := hy
    have hf2 : ff = false := hf
    have hs2 : fs = some s := hs
    have hst : optStrTruthy fs = true := by simp [hs2, optStrTruthy, hse]
    constructor
    · intro d hd
      constructor
      · intro u hu hue du hdu
        have hu2 : fu = some u := hu
        have hut : optStrTruthy fu = true := by simp [hu2, optStrTruthy, hue]
        rw [key hy2]
        simp [resolveNoYear, optStrTruthy, hse, hue, hs2, hu2, hd, hdu, hf2]
      · intro hut
        have hut2 : optStrTruthy fu = false := hut
        rw [key hy2]
        have hsts : optStrTruthy (some s) = true := by simp [optStrTruthy, hse]
        simp [resolveNoYear, hsts, hut2, hs2, hd, hf2]
    · intro hd
      rw [key hy2]
      simp [resolveNoYear, optStrTruthy, hse, hs2, hd, hf2]
  · intro hy hf hst u hu hue
    have hy2 : optIntTruthy fy = false := hy
    have hf2 : ff = false := hf
    have hst2 : optStrTruthy fs = false := hst
    have hu2 : fu = some u := hu
    have hut : optStrTruthy fu = true := by simp [hu2, optStrTruthy, hue]
    constructor
    · intro du hdu
      rw [key hy2]
      have hus : optStrTruthy (some u) = true := by simp [optStrTruthy, hue]
      simp [resolveNoYear, hus, hst2, hu2, hdu, hf2]
    · intro hd
      rw [key hy2]
      have hus : optStrTruthy (some u) = true := by simp [optStrTruthy, hue]
      simp [resolveNoYear, hus, hst2, hu2, hd, hf2]
  · intro hy hf hst hut
    have hy2 : optIntTruthy fy = false := hy
    have hf2 : ff = false := hf
    have hst2 : optStrTruthy fs = false := hst
    have hut2 : optStrTruthy fu = false := hut
    rw [key hy2]
    simp [resolveNoYear, hst2, hut2, hf2]

/-- Witness for the amended C1: `year = 2015` yields the 2015 calendar-year
window regardless of stored state and today's date. -/
theorem C1_window_resolution_amended_witness :
    resolveWindow ⟨none, none, some 2015, false⟩ (some ⟨2024, 1, 1⟩) ⟨2025, 10, 12⟩
      = (.ok ⟨2015, 1, 1⟩ ⟨2015, 12, 31⟩, false) :=
  (C1_window_resolution_amended ⟨none, none, some 2015, false⟩
    ⟨2024, 1, 1⟩ ⟨2025, 10, 12⟩).1 2015 rfl (by decide) (by decide)

theorem resolveWindow_noYear (fs fu : Option String) (fy : Option Int) (ff : Bool)
    (lastSync : Option Date) (today : Date) (hy : optIntTruthy fy = false) :
    resolveWindow ⟨fs, fu, fy, ff⟩ lastSync today
      = resolveNoYear ⟨fs, fu, fy, ff⟩ lastSync today := by
  cases fy with
  | none => rfl
  | some y =>
    have hz : y = 0 := by
      by_contra hc
      simp [optIntTruthy, hc] at hy
    subst hz
    simp [resolveWindow]

/-- Counterexample to C6 as stated: with `since` given as the empty string —
present but not a parsable ISO date — the operation does not fail at all:
the empty string is falsy in Python, so `sync_runs` falls through to the
incremental branch, reads the sync state, and performs the network call. -/
theorem C6_empty_since_counterexample :
    fromisoformat ("") = none ∧
    syncRuns ⟨some (""), none, none, false⟩ (some ⟨some ("2024-01-01"), 3⟩)
        ⟨2025, 10, 12⟩ (.ok ⟨some 0, none, none⟩)
      = ([.stateRead, .netCall], .ok 0, some ⟨some ("2024-01-01"), 3⟩) ∧
    Outcome.ok 0 ≠ Outcome.exited ∧
    Effect.netCall ∈ [Effect.stateRead, Effect.netCall] := by
  refine ⟨rfl, by decide, by decide, by decide⟩

/-- Claim C6 (amended): whenever `since` or `until` is given as a nonempty
string that is not a parsable ISO date, `sync_runs` exits with the
invalid-date error before any network call and before any sync-state write,
leaving the state file unchanged; when `since` is truthy the failure happens
before the sync state is even read, while an invalid truthy `until` with a
falsy `since` is detected only after the sync-state read that supplies the
`since` default. An empty date string is treated as absent, not as invalid. -/
theorem C6_invalid_date_amended (flags : SyncFlags) (file : Option LocalFile)
    (today : Date) (api : ApiResult) :
    (∀ s, flags.since = some s → s ≠ "" → fromisoformat s = none →
      optIntTruthy flags.year = false → flags.full = false →
      syncRuns flags file today api = ([], .exited, file)) ∧
    (∀ s d u, flags.since = some s → s ≠ "" → fromisoformat s = some d →
      flags.untilStr = some u → u ≠ "" → fromisoformat u = none →
      optIntTruthy flags.year = false → flags.full = false →
      syncRuns flags file today api = ([], .exited, file)) ∧
    (∀ u, flags.untilStr = some u → u ≠ "" → fromisoformat u = none →
      optIntTruthy flags.year = false → flags.full = false →
      optStrTruthy flags.since = false →
      (cliGetLastSyncDate file today).isSome = true →
      syncRuns flags file today api = ([.stateRead], .exited, file)) := by
  obtain ⟨fs, fu, fy, ff⟩ := flags
  refine ⟨?_, ?_, ?_⟩
  · intro s hs hse hd hy hf
    have hs2 : fs = some s := hs
    have hy2 : optIntTruthy fy = false := hy
    have hf2 : ff = false := hf
    have hsts : optStrTruthy (some s) = true := by simp [optStrTruthy, hse]
    have hres : resolveWindow ⟨fs, fu, fy, ff⟩ (cliGetLastSyncDate file today) today
        = (.invalid, false) := by
      rw [resolveWindow_noYear _ _ _ _ _ _ hy2]
      simp [resolveNoYear, hs2, hsts, hd, hf2]
    simp [syncRuns, hres, readTrace]
  · intro s d u hs hse hd hu hue hud hy hf
    have hs2 : fs = some s := hs
    have hu2 : fu = some u := hu
    have hy2 : optIntTruthy fy = false := hy
    have hf2 : ff = false := hf
    have hsts : optStrTruthy (some s) = true := by simp [optStrTruthy, hse]
    have hus : optStrTruthy (some u) = true := by simp [optStrTruthy, hue]
    have hres : resolveWindow ⟨fs, fu, fy, ff⟩ (cliGetLastSyncDate file today) today
        = (.invalid, false) := by
      rw [resolveWindow_noYear _ _ _ _ _ _ hy2]
      simp [resolveNoYear, hs2, hu2, hsts, hus, hd, hud, hf2]
    simp [syncRuns, hres, readTrace]
  · intro u hu hue hd hy hf hst hsome
    have hu2 : fu = some u := hu
    have hy2 : optIntTruthy fy = false := hy
    have hf2 : ff = false := hf
    have hst2 : optStrTruthy fs = false := hst
    have hus : optStrTruthy (some u) = true := by simp [optStrTruthy, hue]
    obtain ⟨d, hdd⟩ := Option.isSome_iff_exists.mp hsome
    have hres : resolveWindow ⟨fs, fu, fy, ff⟩ (cliGetLastSyncDate file today) today
        = (.invalid, true) := by
      rw [resolveWindow_noYear _ _ _ _ _ _ hy2]
      simp [resolveNoYear, hu2, hus, hst2, hd, hf2, hdd]
    simp [syncRuns, hres, readTrace]

/-- Witness for the amended C6: an unparsable `--since` exits with no
effects at all, state file unchanged. -/
theorem C6_invalid_date_amended_witness :
    syncRuns ⟨some ("zzz"), none, none, false⟩ (some ⟨some ("2024-01-01"), 3⟩)
        ⟨2025, 10, 12⟩ .exn
      = ([], .exited, some ⟨some ("2024-01-01"), 3⟩) :=
  (C6_invalid_date_amended ⟨some ("zzz"), none, none, false⟩
      (some ⟨some ("2024-01-01"), 3⟩) ⟨2025, 10, 12⟩ .exn).1
    ("zzz") rfl (by decide) (by decide) rfl rfl

/-- Counterexample to C3 as stated: after a successful sync of a historical
window whose `until` is 2024-01-01, performed on a day when today is
2024-06-01, `SyncStateManager.record_sync_attempt` records today's date as
the new last-sync date, not the window's `until` date. -/
theorem C3_record_sync_attempt_counterexample :
    recordSyncAttempt true 5 ⟨2024, 6, 1⟩ 99 (some ⟨some ("2024-01-01"), 0, 0⟩)
      = some ⟨some ("2024-06-01"), 99, 5⟩ ∧
    ("2024-06-01" : String) ≠ Date.isoformat ⟨2024, 1, 1⟩ := by
  refine ⟨by decide, by decide⟩

/-- Claim C3 (amended): after a successful CLI sync with `runs_synced > 0`,
the date written to the local sync state is the response's `until` date —
defaulting to the resolved window's `until` when the response omits it —
independent of today's date; `SyncStateManager.record_sync_attempt`, by
contrast, always records today's date. -/
theorem C3_until_recorded_amended (flags : SyncFlags) (file : Option LocalFile)
    (today : Date) (resp : SyncResponse) (sd ud : Date) (r : Bool)
    (runsSynced : Nat) (nowTs : Int) (st : Option SyncStoreState) :
    (resolveWindow flags (cliGetLastSyncDate file today) today = (.ok sd ud, r) →
      0 < resp.runs_synced.getD 0 →
      ((∀ s d, resp.untilStr = some s → fromisoformat s = some d →
        (syncRuns flags file today (.ok resp)).2.2
          = some ⟨some d.isoformat, resp.runs_synced.getD 0⟩) ∧
       (resp.untilStr = none → ud.valid = true →
        (syncRuns flags file today (.ok resp)).2.2
          = some ⟨some ud.isoformat, resp.runs_synced.getD 0⟩))) ∧
    recordSyncAttempt true runsSynced today nowTs st
      = some ⟨some today.isoformat, nowTs, runsSynced⟩ := by
  constructor
  · intro hres hpos
    constructor
    · intro s d hu hd
      simp [syncRuns, hres, hu, hd, hpos]
    · intro hu hv
      simp [syncRuns, hres, hu, fromisoformat_isoformat ud hv, hpos]
  · rfl

/-- Witness for the amended C3: a year-2015 sync performed in 2025 records
2015-12-31 — the window's `until` — in the local state, not today. -/
theorem C3_until_recorded_amended_witness :
    (syncRuns ⟨none, none, some 2015, false⟩ (some ⟨some ("2024-01-01"), 3⟩)
        ⟨2025, 10, 12⟩ (.ok ⟨some 7, none, none⟩)).2.2
      = some ⟨some (Date.isoformat ⟨2015, 12, 31⟩), 7⟩ :=
  ((C3_until_recorded_amended ⟨none, none, some 2015, false⟩
      (some ⟨some ("2024-01-01"), 3⟩) ⟨2025, 10, 12⟩ ⟨some 7, none, none⟩
      ⟨2015, 1, 1⟩ ⟨2015, 12, 31⟩ false 0 0 none).1 (by decide) (by decide)).2
    rfl (by decide)

/-- Claim C10: when the response reports `runs_synced = 0`, `sync_runs` does
not write the local sync-state file at all — `get_last_sync_date` returns
the same value before and after the invocation — and a state write occurs
only when `runs_synced > 0`, in which case it carries the response's `until`
date and the reported count. -/
theorem C10_zero_runs_no_write (flags : SyncFlags) (file : Option LocalFile)
    (today : Date) (resp : SyncResponse) (sd ud : Date) (r : Bool) :
    resolveWindow flags (cliGetLastSyncDate file today) today = (.ok sd ud, r) →
    ((resp.runs_synced.getD 0 = 0 →
      syncRuns flags file today (.ok resp)
        = (readTrace r ++ [.netCall], .ok 0, file) ∧
      cliGetLastSyncDate (syncRuns flags file today (.ok resp)).2.2 today
        = cliGetLastSyncDate file today) ∧
     (∀ (d : Date) (n : Nat),
      Effect.stateWrite d n ∈ (syncRuns flags file today (.ok resp)).1 →
      resp.runs_synced.getD 0 = n ∧ 0 < n ∧
      fromisoformat (resp.untilStr.getD ud.isoformat) = some d ∧
      (syncRuns flags file today (.ok resp)).2.2 = some ⟨some d.isoformat, n⟩)) := by
  intro hres
  constructor
  · intro hz
    exact ⟨by simp [syncRuns, hres, hz], by simp [syncRuns, hres, hz]⟩
  · intro d n hmem
    by_cases hpos : 0 < resp.runs_synced.getD 0
    · cases hparse : fromisoformat (resp.untilStr.getD ud.isoformat) with
      | none =>
        exfalso
        simp only [syncRuns, hres] at hmem
        rw [if_pos hpos, hparse] at hmem
        cases r <;> simp [readTrace] at hmem
      | some d0 =>
        simp only [syncRuns, hres] at hmem
        rw [if_pos hpos, hparse] at hmem
        have hdn : d = d0 ∧ n = resp.runs_synced.getD 0 := by
          cases r <;> simp [readTrace] at hmem <;> tauto
        obtain ⟨hd0, hn0⟩ := hdn
        subst hd0
        subst hn0
        refine ⟨rfl, hpos, by simp [hparse], ?_⟩
        simp [syncRuns, hres, hpos, hparse]
    · exfalso
      simp only [syncRuns, hres] at hmem
      rw [if_neg hpos] at hmem
      cases r <;> simp [readTrace] at hmem

/-- Witness for C10: a zero-run response leaves the state file untouched. -/
theorem C10_zero_runs_no_write_witness :
    syncRuns ⟨none, none, some 2015, false⟩ (some ⟨some ("2024-01-01"), 3⟩)
        ⟨2025, 10, 12⟩ (.ok ⟨some 0, none, none⟩)
      = ([.netCall], .ok 0, some ⟨some ("2024-01-01"), 3⟩) :=
  ((C10_zero_runs_no_write ⟨none, none, some 2015, false⟩
      (some ⟨some ("2024-01-01"), 3⟩) ⟨2025, 10, 12⟩ ⟨some 0, none, none⟩
      ⟨2015, 1, 1⟩ ⟨2015, 12, 31⟩ false (by decide)).1 rfl).1

end MyRunStreak
